import Mathlib

/-!
Shallow embedding of the code-review-assistant backend
(`src/agent/agent.py`, `src/agent/review_tool.py`, `src/agent/pr_data.py`,
`src/main.py`), covering the retrieval-tool registry, the review sub-agent
tool, the session registry and the chat endpoint.

External collaborators (the ChromaDB store, the filesystem and the language
model) are modelled as explicit parameters (`Env`, `FS`, `Oracle`); the
Python functions are translated statement by statement into pure Lean
functions, with mutation of the module-level session dictionaries made
explicit as state passing.
-/

namespace CodeReviewAssistant

/-- One entry of the `tool_configs` list inside
`agent.load_query_engine_tools`.  The long natural-language `description`
strings are carried by the Python dicts but are not modelled: no verified
property depends on their text. -/
structure ToolConfig where
  storage_dir : String
  name : String
  collection_name : String
deriving Repr, DecidableEq

/-- The `tool_configs` list of `load_query_engine_tools`, with the f-string
collection names `f"{pr_id}_pr_data"` etc. -/
def tool_configs (pr_id : String) : List ToolConfig :=
  [ { storage_dir := "storage_pr_data", name := "search_pr",
      collection_name := pr_id ++ "_pr_data" },
    { storage_dir := "storage_source_code", name := "search_code",
      collection_name := pr_id ++ "_source_code" },
    { storage_dir := "storage_pr_feature", name := "search_requirements",
      collection_name := pr_id ++ "_pr_feature" } ]

/-- Outcome of the per-config `try` block in `load_query_engine_tools`:
`loadFail` models any exception raised while opening or loading the corpus
(`get_collection`, storage context, `load_index_from_storage`), which the
code catches and answers with `continue`; `loaded n` models a collection
that opens and reports `collection.count() = n` (and, for `n > 0`, whose
index loads successfully). -/
inductive CorpStatus where
  | loadFail
  | loaded (count : Nat)
deriving Repr, DecidableEq

/-- The external store state: whether `indexes/{pr_id}` exists, whether the
ChromaDB `PersistentClient` initializes for it, and the status of each named
collection of that client. -/
structure Env where
  indexDirExists : String → Bool
  clientOk : String → Bool
  corpus : String → String → CorpStatus

/-- A tool handed to an agent: either a query-engine adapter over a loaded
collection, the empty-collection stub `FunctionTool`, or the `start_review`
`FunctionTool` built by `create_review_tool` (which closes over the filtered
sub-tool list and the pr id).  The per-engine retrieval parameters
(`similarity_top_k`, the refine / tree-summarize response modes) are not
modelled: no verified property depends on them. -/
inductive Tool where
  | queryEngine (name collection_name : String)
  | emptyStub (name collection_name : String)
  | reviewTool (pr_id : String) (subTools : List Tool)

/-- `tool.metadata.name`: the registered name of a tool. -/
def Tool.name : Tool → String
  | .queryEngine n _ => n
  | .emptyStub n _ => n
  | .reviewTool _ _ => "start_review"

/-- The sub-tool list a `start_review` tool closes over (empty for the
other tool shapes). -/
def Tool.subTools : Tool → List Tool
  | .reviewTool _ ts => ts
  | _ => []

/-- The message produced by `empty_collection_func` for an empty
collection.  The Python closure reads the loop variable `config` at call
time (so, called after the loop, it interpolates the last config's names);
the theorems below depend only on the fixed tail
`") is empty. No data is available for this tool."`, which is the same
under either reading, so the stub is modelled as carrying the names of the
config it was created for. -/
def emptyStubMessage (name collection_name : String) : String :=
  "The " ++ name ++ " collection (" ++ collection_name ++
    ") is empty. No data is available for this tool."

/-- The body of the `for config in tool_configs` loop of
`load_query_engine_tools`: an exception anywhere in the `try` block makes
the loop `continue` (no tool for this config); a collection with zero items
yields the empty-collection stub; a non-empty collection yields a
query-engine tool. -/
def corpusTool (env : Env) (pr_id : String) (cfg : ToolConfig) : Option Tool :=
  match env.corpus pr_id cfg.collection_name with
  | .loadFail => none
  | .loaded 0 => some (.emptyStub cfg.name cfg.collection_name)
  | .loaded (_ + 1) => some (.queryEngine cfg.name cfg.collection_name)

/-- `agent.load_query_engine_tools`: returns `[]` when the project index
directory is missing or the ChromaDB client fails to initialize, otherwise
collects the per-config tools, skipping configs whose loading raised. -/
def load_query_engine_tools (env : Env) (pr_id : String) : List Tool :=
  if !env.indexDirExists pr_id then []
  else if !env.clientOk pr_id then []
  else (tool_configs pr_id).filterMap (corpusTool env pr_id)

/-- The filesystem seen by `pr_data.get_pr_data`: whether
`data/{project}/pr_data/pr.json` exists and, when it does, its content. -/
structure FS where
  prJsonExists : String → Bool
  prJson : String → String

/-- The path `get_pr_data` constructs (its absolute-path resolution via
`__file__` is modelled by the path relative to the repository root). -/
def pr_json_path (project_name : String) : String :=
  "data/" ++ project_name ++ "/pr_data/pr.json"

/-- `pr_data.get_pr_data`: reads `pr.json` as a string; when the file is
absent it raises `FileNotFoundError(f"PR data file not found at {path}")`,
modelled as `Except.error` carrying `str(e)`. -/
def get_pr_data (fs : FS) (project_name : String) : Except String String :=
  if fs.prJsonExists project_name then .ok (fs.prJson project_name)
  else .error ("PR data file not found at " ++ pr_json_path project_name)

/-- An agent as configured by `create_agent` /
`ReActAgent.from_tools`: the pr id and mode it was created for, its tool
list and its `max_iterations` budget.  The system-prompt text selected per
mode is not modelled: no verified property depends on it. -/
structure Agent where
  pr_id : String
  mode : String
  tools : List Tool
  max_iterations : Nat

/-- The external language-model / retrieval collaborators:
`queryCorpus collection query` is the synthesized answer of a loaded
corpus's query engine; `subAgentChat tools msg` is the review sub-agent's
final chat response given its tool list; `achat agent query` is the outer
agent's final chat response.  All are opaque total functions. -/
structure Oracle where
  queryCorpus : String → String → String
  subAgentChat : List Tool → String → String
  achat : Agent → String → String

/-- `review_tool.create_review_tool`: keeps only the tools whose
`metadata.name` is in `["search_code", "search_requirements"]` and wraps
`generate_review` (closing over that filtered list and the pr id) as the
`start_review` `FunctionTool`. -/
def create_review_tool (tools : List Tool) (pr_id : String) : Tool :=
  .reviewTool pr_id
    (tools.filter fun t => ["search_code", "search_requirements"].contains t.name)

/-- The initial message `generate_review` sends to the review sub-agent,
with the PR payload inlined. -/
def initial_message (pr_data : String) : String :=
  "\n## PR DATA TO REVIEW\n\nHere is the complete PR data that you should analyze for your review:\n\n```json\n"
    ++ pr_data ++
    "\n```\n\nPlease provide a comprehensive code review of this PR following the format in your instructions.\nPlease consider all files in PR data above and focus on the diffs of each file.\nDo NOT ask for more PR information - it's provided above.\nBegin your review immediately based on the data above and use your tools for additional context if needed.\n"

/-- The fixed text `generate_review` prepends to the sub-agent's response
before returning it to the outer agent. -/
def review_return_preamble : String :=
  "The following is the compiled code review. Return it directly to the user without modifying the content or language. Ensure the response is returned as plain markdown text (not as a markdown code block), so the frontend can compile and format it.\n\n---\n\n"

/-- `review_tool.generate_review` (the `start_review` tool's callable): the
whole body sits in a `try` whose `except` returns
`f"Error generating review: {e}"`; in this model the only fallible step is
`get_pr_data` (the sub-agent chat is an opaque total oracle), so the
function is total and returns the error text instead of raising. -/
def generate_review (fs : FS) (oracle : Oracle) (filtered_tools : List Tool)
    (pr_id : String) (_query : String) : String :=
  match get_pr_data fs pr_id with
  | .error e => "Error generating review: " ++ e
  | .ok pr_data =>
      review_return_preamble ++ oracle.subAgentChat filtered_tools (initial_message pr_data)

/-- Invoking one tool with an input string: a query-engine tool queries its
collection; the empty-collection stub returns its fixed message for any
input; the `start_review` tool runs `generate_review` over the sub-tool
list it closed over. -/
def runTool (fs : FS) (oracle : Oracle) : Tool → String → String
  | .queryEngine _ coll, q => oracle.queryCorpus coll q
  | .emptyStub n coll, _ => emptyStubMessage n coll
  | .reviewTool pr_id subs, q => generate_review fs oracle subs pr_id q

/-- `agent.create_agent`: loads the query-engine tools, fails (returns
`None`) when none could be loaded, appends the `start_review` tool in
`co_reviewer` mode, validates the mode (unknown modes return `None`) and
builds the `ReActAgent` with `max_iterations=10`. -/
def create_agent (env : Env) (pr_id mode : String) : Option Agent :=
  let query_engine_tools := load_query_engine_tools env pr_id
  if query_engine_tools.isEmpty then none
  else
    let tools :=
      if mode == "co_reviewer" then
        query_engine_tools ++ [create_review_tool query_engine_tools pr_id]
      else query_engine_tools
    if mode == "co_reviewer" || mode == "interactive_assistant" then
      some { pr_id := pr_id, mode := mode, tools := tools, max_iterations := 10 }
    else none

/-- A Python `dict` keyed by strings, modelled as an association list
without duplicate keys (assignment replaces the existing entry). -/
abbrev Dict (α : Type) := List (String × α)

/-- `d[k]` lookup (`None` when the key is absent). -/
def dictFind {α : Type} (d : Dict α) (k : String) : Option α :=
  match d with
  | [] => none
  | (k', v) :: rest => if k' == k then some v else dictFind rest k

/-- `d[k] = v` assignment. -/
def dictSet {α : Type} (d : Dict α) (k : String) (v : α) : Dict α :=
  match d with
  | [] => [(k, v)]
  | (k', v') :: rest =>
      if k' == k then (k, v) :: rest else (k', v') :: dictSet rest k v

/-- One transcript message (`{"role": ..., "content": ...}`). -/
structure Message where
  role : String
  content : String
deriving Repr, DecidableEq

/-- The module-level mutable dictionaries of `agent.py`:
`agent_sessions: Dict[str, ReActAgent]` (which stores the possibly-`None`
result of `create_agent`) and `chat_history: Dict[str, List]`. -/
structure SessionState where
  agent_sessions : Dict (Option Agent)
  chat_history : Dict (List Message)

/-- `session_key = session_id if session_id else pr_id`: Python truthiness
makes both `None` and the empty string fall back to `pr_id`. -/
def session_key_of (session_id : Option String) (pr_id : String) : String :=
  match session_id with
  | none => pr_id
  | some s => if s == "" then pr_id else s

/-- `agent.get_agent_for_pr`: when the session key is unseen, stores
`create_agent(pr_id, mode)` (possibly `None`) under it and initializes an
empty transcript for it; then returns the stored agent, or `None` when the
stored agent is `None`. -/
def get_agent_for_pr (env : Env) (st : SessionState) (pr_id mode : String)
    (session_id : Option String) : Option Agent × SessionState :=
  let session_key := session_key_of session_id pr_id
  let st1 :=
    if (dictFind st.agent_sessions session_key).isNone then
      { agent_sessions := dictSet st.agent_sessions session_key (create_agent env pr_id mode),
        chat_history := dictSet st.chat_history session_key [] }
    else st
  match dictFind st1.agent_sessions session_key with
  | some (some a) => (some a, st1)
  | _ => (none, st1)

/-- `agent.get_chat_history`. -/
def get_chat_history (st : SessionState) (session_id : String) : List Message :=
  (dictFind st.chat_history session_id).getD []

/-- `agent.add_to_chat_history`: appends only when the session already has
a transcript entry. -/
def add_to_chat_history (st : SessionState) (session_id : String)
    (message : Message) : SessionState :=
  match dictFind st.chat_history session_id with
  | some msgs =>
      { st with chat_history := dictSet st.chat_history session_id (msgs ++ [message]) }
  | none => st

/-- `main.ChatRequest`. -/
structure ChatRequest where
  query : String
  mode : String
  pr_id : String
  participant_id : Option String
  session_id : Option String

/-- `main.ChatResponse` (the wall-clock `timestamp` field is not
modelled). -/
structure ChatResponse where
  answer : String
  mode : String
  pr_id : String
  session_id : Option String
deriving Repr, DecidableEq

/-- The logging configuration and filesystem behaviour seen by
`main.persist_log`: whether `CHAT_LOGGING_ENABLED` is on, whether the n-th
append to the per-session log file during this request succeeds, and the
`str(e)` text of the raised `OSError` when it does not. -/
structure LogConfig where
  enabled : Bool
  writeOk : Nat → Bool
  writeErrMsg : String

/-- What `chat_endpoint` produces for one request: a `ChatResponse`, an
`HTTPException(status, detail)` raised to the framework, or an exception
escaping the endpoint uncaught (surfaced by the framework as an internal
server error). -/
inductive EndpointResult where
  | response (resp : ChatResponse)
  | httpError (status : Nat) (detail : String)
  | uncaught (detail : String)
deriving Repr, DecidableEq

/-- Python's `s.startswith(pre)`: a prefix match on the character sequence
(`String.startsWith` itself is semantically identical but is defined
through a byte-position loop that the kernel cannot evaluate, so the
character-list form is used). -/
def startswith (s pre : String) : Bool :=
  pre.data.isPrefixOf s.data

/-- The fixed instruction text prepended to non-"start review" queries in
`main.chat_endpoint`. -/
def instruction_prefix : String :=
  "Follow the system prompts strictly, using tools for context when needed (do not use the start_review tool!). Respond in English, format answers in Markdown, and use fenced code blocks with language tags for code snippets. The following is the user's query; ensure you address it comprehensively and fulfill all instructions provided:\n\n"

/-- The session id used by `chat_endpoint`: the request's, or the freshly
generated `uuid4` (passed in as `fresh_session_id`) when absent. -/
def effective_session_id (request : ChatRequest) (fresh_session_id : String) : String :=
  match request.session_id with
  | none => fresh_session_id
  | some s => s

/-- `main.chat_endpoint`, for one request against the current session
state.  The two `persist_log` calls are the 0th and 1st file writes: the
0th (the request record) runs before the `try` block, so its failure
escapes the endpoint uncaught; the 1st (the response record) runs inside
the `try`, so its failure is caught by the `except Exception` handler,
which appends a system message to the transcript and re-raises
`HTTPException(500, f"An error occurred: {e}")`.  An invalid mode reaching
the dispatch raises `HTTPException(400, ...)` inside the same `try`, so it
too is wrapped into a 500 whose detail embeds
`str(e) = "400: Invalid mode: ..."`. -/
def chat_endpoint (env : Env) (log : LogConfig) (oracle : Oracle)
    (fresh_session_id : String) (st : SessionState) (request : ChatRequest) :
    EndpointResult × SessionState :=
  let session_id := effective_session_id request fresh_session_id
  if log.enabled && !log.writeOk 0 then
    (.uncaught log.writeErrMsg, st)
  else
    match get_agent_for_pr env st request.pr_id request.mode (some session_id) with
    | (none, st1) =>
        (.httpError 500
          ("Could not initialize agent for PR ID: " ++ request.pr_id ++
            ". Check index availability and logs."), st1)
    | (some agent, st1) =>
        let st2 := add_to_chat_history st1 session_id
          { role := "user", content := request.query }
        if request.mode == "interactive_assistant" || request.mode == "co_reviewer" then
          let query :=
            if startswith request.query "start review" then request.query
            else instruction_prefix ++ request.query
          let response_text := oracle.achat agent query
          let st3 := add_to_chat_history st2 session_id
            { role := "assistant", content := response_text }
          let chat_response : ChatResponse :=
            { answer := response_text, mode := request.mode,
              pr_id := request.pr_id, session_id := some session_id }
          if log.enabled && !log.writeOk 1 then
            let st4 := add_to_chat_history st3 session_id
              { role := "system",
                content := "Error processing request: " ++ log.writeErrMsg }
            (.httpError 500 ("An error occurred: " ++ log.writeErrMsg), st4)
          else
            (.response chat_response, st3)
        else
          let st3 := add_to_chat_history st2 session_id
            { role := "system",
              content := "Error processing request: 400: Invalid mode: " ++ request.mode }
          (.httpError 500 ("An error occurred: 400: Invalid mode: " ++ request.mode), st3)

/-! ### Concrete fixtures

Small closed instances of the external collaborators, used to evaluate the
model at concrete inputs. -/

/-- A store in which every project index exists and every collection is
non-empty. -/
def envAll : Env :=
  { indexDirExists := fun _ => true, clientOk := fun _ => true,
    corpus := fun _ _ => .loaded 1 }

/-- A store with no project index directories: every agent construction
fails. -/
def envNoDir : Env :=
  { indexDirExists := fun _ => false, clientOk := fun _ => true,
    corpus := fun _ _ => .loaded 1 }

/-- A store for project `"p"` in which the diff corpus fails to load and
the other two load non-empty. -/
def envPartial : Env :=
  { indexDirExists := fun _ => true, clientOk := fun _ => true,
    corpus := fun _ coll => if coll == "p_pr_data" then .loadFail else .loaded 1 }

/-- A store for project `"p"` in which the diff corpus fails to load, the
code corpus loads non-empty, and the requirements corpus opens empty. -/
def envMixed : Env :=
  { indexDirExists := fun _ => true, clientOk := fun _ => true,
    corpus := fun _ coll =>
      if coll == "p_pr_data" then .loadFail
      else if coll == "p_pr_feature" then .loaded 0
      else .loaded 3 }

/-- The empty session registry (server start-up state). -/
def st0 : SessionState := { agent_sessions := [], chat_history := [] }

/-- An oracle whose outer agent always answers `"the answer"`. -/
def oracleAns : Oracle :=
  { queryCorpus := fun _ _ => "corpus answer",
    subAgentChat := fun _ _ => "sub answer",
    achat := fun _ _ => "the answer" }

/-- An oracle whose outer agent echoes the query it was dispatched. -/
def oracleEcho : Oracle :=
  { queryCorpus := fun _ _ => "corpus answer",
    subAgentChat := fun _ _ => "sub answer",
    achat := fun _ q => "echo:" ++ q }

/-- A filesystem with no `pr.json` for any project. -/
def fsNone : FS := { prJsonExists := fun _ => false, prJson := fun _ => "" }

/-- Logging disabled. -/
def logOff : LogConfig := { enabled := false, writeOk := fun _ => true, writeErrMsg := "" }

/-- Logging enabled, all writes succeed. -/
def logOn : LogConfig := { enabled := true, writeOk := fun _ => true, writeErrMsg := "" }

/-- Logging enabled, every write raises `OSError("boom")`. -/
def logFail0 : LogConfig := { enabled := true, writeOk := fun _ => false, writeErrMsg := "boom" }

/-- Logging enabled; the request record (write 0) succeeds but the
response record (write 1) raises `OSError("boom")`. -/
def logFail1 : LogConfig := { enabled := true, writeOk := fun n => n == 0, writeErrMsg := "boom" }

/-- A plain chat request for project `"X"` in session `"s"`. -/
def reqPlain : ChatRequest :=
  { query := "hello", mode := "interactive_assistant", pr_id := "X",
    participant_id := none, session_id := some "s" }

/-- A co-reviewer request whose query starts with (but does not equal)
`"start review"`. -/
def reqStartReview : ChatRequest :=
  { query := "start review please", mode := "co_reviewer", pr_id := "X",
    participant_id := none, session_id := some "s" }

/-- The requirements-corpus config of project `"p"`. -/
def cfgFeature : ToolConfig :=
  { storage_dir := "storage_pr_feature", name := "search_requirements",
    collection_name := "p_pr_feature" }

/-- The agent `create_agent` builds for project `"X"` in co-reviewer mode
over `envAll` (total by the `getD` fallback, which is never taken). -/
def agentX : Agent :=
  (create_agent envAll "X" "co_reviewer").getD
    { pr_id := "", mode := "", tools := [], max_iterations := 0 }

/-- The registry state after binding session `"s"` to project `"X"` in
co-reviewer mode over `envAll`. -/
def stX : SessionState :=
  (get_agent_for_pr envAll st0 "X" "co_reviewer" (some "s")).2

/-! ### Helper lemmas -/

/-- Looking up a key right after assigning it yields the assigned value. -/
theorem dictFind_dictSet_self {α : Type} (d : Dict α) (k : String) (v : α) :
    dictFind (dictSet d k v) k = some v := by
  induction d with
  | nil => simp [dictSet, dictFind]
  | cons hd tl ih =>
      obtain ⟨k', v'⟩ := hd
      by_cases h : k' == k
      · simp [dictSet, dictFind, h]
      · simp only [dictSet, dictFind, h, Bool.false_eq_true, if_false, ite_false]
        exact ih

/-- A string starting with `"The "` is not the empty string. -/
theorem append_The_ne_empty (x : String) : ("The " ++ x) ≠ "" := by
  intro h
  have := congrArg String.data h
  simp [String.data_append] at this

/-- The empty-collection stub message is never the empty string. -/
theorem emptyStubMessage_ne_empty (name collection_name : String) :
    emptyStubMessage name collection_name ≠ "" := by
  simpa [emptyStubMessage, String.append_assoc] using
    append_The_ne_empty (name ++ " collection (" ++ collection_name ++
      ") is empty. No data is available for this tool.")

/-- The names of the tools built from a config list are exactly the names of
the configs whose corpus did not fail to load. -/
theorem map_name_filterMap_corpusTool (env : Env) (pr_id : String)
    (l : List ToolConfig) :
    (l.filterMap (corpusTool env pr_id)).map Tool.name =
      (l.filter fun cfg =>
        !(env.corpus pr_id cfg.collection_name == CorpStatus.loadFail)).map ToolConfig.name := by
  induction l with
  | nil => simp
  | cons cfg tl ih =>
      cases h : env.corpus pr_id cfg.collection_name with
      | loadFail => simpa [corpusTool, h] using ih
      | loaded n =>
          cases n with
          | zero => simpa [corpusTool, h, Tool.name] using ih
          | succ m => simpa [corpusTool, h, Tool.name] using ih

/-- `get_agent_for_pr` on a fresh session key whose agent construction
fails: returns `none` and records the `None` entry and an empty
transcript. -/
theorem get_agent_for_pr_fresh_fail (env : Env) (st : SessionState)
    (pr_id mode s : String) (hs : (s == "") = false)
    (hfresh : dictFind st.agent_sessions s = none)
    (hfail : create_agent env pr_id mode = none) :
    get_agent_for_pr env st pr_id mode (some s) =
      (none,
        { agent_sessions := dictSet st.agent_sessions s none,
          chat_history := dictSet st.chat_history s [] }) := by
  simp [get_agent_for_pr, session_key_of, hs, hfresh, hfail, dictFind_dictSet_self]

/-- `get_agent_for_pr` on a session key already mapped to a failed (`None`)
agent: returns `none` and leaves the state unchanged, whatever `pr_id` and
`mode` are supplied. -/
theorem get_agent_for_pr_mapped_none (env : Env) (st : SessionState)
    (pr_id mode s : String) (hs : (s == "") = false)
    (h : dictFind st.agent_sessions s = some none) :
    get_agent_for_pr env st pr_id mode (some s) = (none, st) := by
  simp [get_agent_for_pr, session_key_of, hs, h]

/-! ### Claim theorems -/

/-- C1 (failing evaluation): with session `"s"` already bound to ChangeSet
`"X"`, a get-or-create call for the same session with ChangeSet `"Y"`
returns the very agent created for `"X"` — still bound to `"X"`'s corpora —
instead of discarding it and building one bound to `"Y"`.  The session key
is the only thing `get_agent_for_pr` consults; the requested `pr_id` is
ignored for an existing session. -/
theorem changeset_switch_returns_stale_agent :
    ((get_agent_for_pr envAll
        (get_agent_for_pr envAll st0 "X" "interactive_assistant" (some "s")).2
        "Y" "interactive_assistant" (some "s")).1.map Agent.pr_id = some "X") ∧
    ((get_agent_for_pr envAll
        (get_agent_for_pr envAll st0 "X" "interactive_assistant" (some "s")).2
        "Y" "interactive_assistant" (some "s")).1 =
      (get_agent_for_pr envAll st0 "X" "interactive_assistant" (some "s")).1) :=
  ⟨rfl, rfl⟩

/-- C2 counterexample: a get-or-create call whose agent construction fails
(the ChangeSet has no index directory) returns no usable agent, yet it
*does* record session state: the registry maps session `"s"` to the failed
(`None`) agent and creates an (empty) transcript entry for `"s"`,
contradicting "no session entry is created". -/
theorem failed_construction_still_records_session_entry :
    ((get_agent_for_pr envNoDir st0 "missing" "co_reviewer" (some "s")).1.isNone = true) ∧
    ((dictFind (get_agent_for_pr envNoDir st0 "missing" "co_reviewer"
        (some "s")).2.agent_sessions "s").isSome = true) ∧
    (dictFind (get_agent_for_pr envNoDir st0 "missing" "co_reviewer"
        (some "s")).2.chat_history "s" = some []) :=
  ⟨rfl, rfl, rfl⟩

/-- C2 amended: when agent construction fails for a fresh session id, the
call returns no usable agent and appends no transcript messages (the
transcript stays empty), but it does record a session entry mapping the
session id to the failed (`None`) agent together with an empty
transcript. -/
theorem failed_construction_returns_none_but_records_entry
    (env : Env) (st : SessionState) (pr_id mode s : String)
    (hs : (s == "") = false)
    (hfresh : dictFind st.agent_sessions s = none)
    (hfail : create_agent env pr_id mode = none) :
    (get_agent_for_pr env st pr_id mode (some s)).1 = none ∧
    dictFind (get_agent_for_pr env st pr_id mode (some s)).2.agent_sessions s = some none ∧
    get_chat_history (get_agent_for_pr env st pr_id mode (some s)).2 s = [] := by
  rw [get_agent_for_pr_fresh_fail env st pr_id mode s hs hfresh hfail]
  exact ⟨rfl, by simp [dictFind_dictSet_self],
    by simp [get_chat_history, dictFind_dictSet_self]⟩

/-- C2 amended, witness at a concrete input. -/
theorem failed_construction_returns_none_but_records_entry_witness :
    (get_agent_for_pr envNoDir st0 "missing" "co_reviewer" (some "s")).1 = none ∧
    dictFind (get_agent_for_pr envNoDir st0 "missing" "co_reviewer"
      (some "s")).2.agent_sessions "s" = some none ∧
    get_chat_history (get_agent_for_pr envNoDir st0 "missing" "co_reviewer"
      (some "s")).2 "s" = [] :=
  failed_construction_returns_none_but_records_entry envNoDir st0 "missing"
    "co_reviewer" "s" rfl rfl rfl

/-- C9: once a get-or-create call for a fresh session id fails to construct
an agent, the registry maps that session id to the failed (`None`) agent
with an empty transcript, and every subsequent get-or-create call with the
same session id — for any store, any `pr_id` and any `mode`, valid or not —
returns no usable agent and leaves the registry unchanged. -/
theorem failed_session_is_permanently_unusable
    (env : Env) (st : SessionState) (pr_id mode s : String)
    (hs : (s == "") = false)
    (hfresh : dictFind st.agent_sessions s = none)
    (hfail : create_agent env pr_id mode = none) :
    dictFind (get_agent_for_pr env st pr_id mode (some s)).2.agent_sessions s = some none ∧
    get_chat_history (get_agent_for_pr env st pr_id mode (some s)).2 s = [] ∧
    ∀ (env' : Env) (pr' mode' : String),
      get_agent_for_pr env' (get_agent_for_pr env st pr_id mode (some s)).2
          pr' mode' (some s) =
        (none, (get_agent_for_pr env st pr_id mode (some s)).2) := by
  rw [get_agent_for_pr_fresh_fail env st pr_id mode s hs hfresh hfail]
  refine ⟨by simp [dictFind_dictSet_self],
    by simp [get_chat_history, dictFind_dictSet_self], ?_⟩
  intro env' pr' mode'
  exact get_agent_for_pr_mapped_none env' _ pr' mode' s hs
    (by simp [dictFind_dictSet_self])

/-- C9 witness: after session `"s"` fails against the broken store, a call
with a fully valid store, `pr_id` and mode still returns no agent and does
not touch the registry. -/
theorem failed_session_is_permanently_unusable_witness :
    get_agent_for_pr envAll
        (get_agent_for_pr envNoDir st0 "missing" "co_reviewer" (some "s")).2
        "X" "interactive_assistant" (some "s") =
      (none, (get_agent_for_pr envNoDir st0 "missing" "co_reviewer" (some "s")).2) :=
  (failed_session_is_permanently_unusable envNoDir st0 "missing" "co_reviewer"
    "s" rfl rfl rfl).2.2 envAll "X" "interactive_assistant"

/-- C3 counterexample: for project `"p"` whose diff corpus fails to load
while the other two load, the Tool Registry holds exactly the two surviving
adapters — the failed corpus is skipped outright, and no "empty stub"
adapter named `search_pr` is created for it. -/
theorem failing_corpus_gets_no_stub_adapter :
    ((load_query_engine_tools envPartial "p").map Tool.name =
      ["search_code", "search_requirements"]) ∧
    ((load_query_engine_tools envPartial "p").filter
      (fun t => t.name == "search_pr") = []) :=
  ⟨rfl, rfl⟩

/-- C3 amended: when some but not all corpora fail to open/load, Tool
Registry construction proceeds with exactly the subset that succeeded —
each failing corpus contributes no adapter at all (it is skipped, not
stubbed) — while a corpus that opens but holds zero items is recovered as
the "empty" stub adapter that reports unavailability. -/
theorem partial_corpus_failure_keeps_surviving_subset
    (env : Env) (pr_id : String)
    (hdir : env.indexDirExists pr_id = true) (hcli : env.clientOk pr_id = true) :
    ((load_query_engine_tools env pr_id).map Tool.name =
      ((tool_configs pr_id).filter (fun cfg =>
        !(env.corpus pr_id cfg.collection_name == CorpStatus.loadFail))).map
          ToolConfig.name) ∧
    (∀ cfg ∈ tool_configs pr_id,
      env.corpus pr_id cfg.collection_name = .loaded 0 →
        Tool.emptyStub cfg.name cfg.collection_name ∈
          load_query_engine_tools env pr_id) := by
  constructor
  · simp only [load_query_engine_tools, hdir, hcli, Bool.not_true,
      Bool.false_eq_true, if_false, ite_false]
    exact map_name_filterMap_corpusTool env pr_id (tool_configs pr_id)
  · intro cfg hmem hempty
    simp only [load_query_engine_tools, hdir, hcli, Bool.not_true,
      Bool.false_eq_true, if_false, ite_false]
    exact List.mem_filterMap.mpr ⟨cfg, hmem, by simp [corpusTool, hempty]⟩

/-- C3 amended, witness at a concrete input: diff corpus fails, code corpus
loads, requirements corpus opens empty. -/
theorem partial_corpus_failure_keeps_surviving_subset_witness :
    ((load_query_engine_tools envMixed "p").map Tool.name =
      ["search_code", "search_requirements"]) ∧
    (Tool.emptyStub "search_requirements" "p_pr_feature" ∈
      load_query_engine_tools envMixed "p") :=
  ⟨(partial_corpus_failure_keeps_surviving_subset envMixed "p" rfl rfl).1,
   (partial_corpus_failure_keeps_surviving_subset envMixed "p" rfl rfl).2
     cfgFeature (by decide) rfl⟩

/-- C4: for a corpus that exists but holds zero items, the Tool Registry
contains an adapter under that corpus's tool name which, for every input,
answers the explicit stub message "... is empty. No data is available for
this tool." — never the empty string. -/
theorem empty_corpus_tool_reports_no_data
    (env : Env) (pr_id : String) (cfg : ToolConfig)
    (hdir : env.indexDirExists pr_id = true) (hcli : env.clientOk pr_id = true)
    (hmem : cfg ∈ tool_configs pr_id)
    (hempty : env.corpus pr_id cfg.collection_name = .loaded 0) :
    ∃ t ∈ load_query_engine_tools env pr_id,
      t.name = cfg.name ∧
      ∀ (fs : FS) (oracle : Oracle) (input : String),
        runTool fs oracle t input = emptyStubMessage cfg.name cfg.collection_name ∧
        runTool fs oracle t input ≠ "" := by
  refine ⟨.emptyStub cfg.name cfg.collection_name, ?_, rfl, ?_⟩
  · simp only [load_query_engine_tools, hdir, hcli, Bool.not_true,
      Bool.false_eq_true, if_false, ite_false]
    exact List.mem_filterMap.mpr ⟨cfg, hmem, by simp [corpusTool, hempty]⟩
  · intro fs oracle input
    exact ⟨rfl, emptyStubMessage_ne_empty cfg.name cfg.collection_name⟩

/-- C4 witness: the empty requirements corpus of project `"p"` yields a
`search_requirements` adapter answering the stub message on any input. -/
theorem empty_corpus_tool_reports_no_data_witness :
    ∃ t ∈ load_query_engine_tools envMixed "p",
      t.name = "search_requirements" ∧
      ∀ (fs : FS) (oracle : Oracle) (input : String),
        runTool fs oracle t input = emptyStubMessage "search_requirements" "p_pr_feature" ∧
        runTool fs oracle t input ≠ "" :=
  empty_corpus_tool_reports_no_data envMixed "p" cfgFeature rfl rfl (by decide) rfl

/-- C5: the review sub-agent's tool list is the input list filtered to the
allow-list — every sub-tool comes from the input list, is named
`search_code` or `search_requirements`, and in particular is neither the
diff tool `search_pr` nor the review tool `start_review` itself. -/
theorem review_subagent_tool_isolation (tools : List Tool) (pr_id : String) :
    ∀ t ∈ (create_review_tool tools pr_id).subTools,
      t ∈ tools ∧
      (t.name = "search_code" ∨ t.name = "search_requirements") ∧
      t.name ≠ "search_pr" ∧ t.name ≠ "start_review" := by
  intro t ht
  have ht' : t ∈ tools.filter
      (fun u => ["search_code", "search_requirements"].contains u.name) := ht
  have hmem := (List.mem_filter.mp ht').1
  have hname : t.name = "search_code" ∨ t.name = "search_requirements" := by
    simpa using (List.mem_filter.mp ht').2
  refine ⟨hmem, hname, ?_, ?_⟩ <;> rcases hname with h | h <;> simp [h]

/-- C5 witness: a concrete code-search tool passes the filter and satisfies
the isolation facts. -/
theorem review_subagent_tool_isolation_witness :
    Tool.queryEngine "search_code" "p_source_code" ∈
        [Tool.queryEngine "search_code" "p_source_code"] ∧
      ((Tool.queryEngine "search_code" "p_source_code").name = "search_code" ∨
        (Tool.queryEngine "search_code" "p_source_code").name = "search_requirements") ∧
      (Tool.queryEngine "search_code" "p_source_code").name ≠ "search_pr" ∧
      (Tool.queryEngine "search_code" "p_source_code").name ≠ "start_review" :=
  review_subagent_tool_isolation [Tool.queryEngine "search_code" "p_source_code"] "p"
    (Tool.queryEngine "search_code" "p_source_code") (List.Mem.head _)

/-- A string starting with the review-tool error banner is not empty. -/
theorem error_banner_append_ne_empty (x : String) :
    ("Error generating review: " ++ x) ≠ "" := by
  intro h
  have := congrArg String.data h
  simp [String.data_append] at this

/-- C7: when the ChangeSet's `pr.json` payload is absent, the review tool's
callable returns the descriptive error string (the banner plus the
file-not-found message) — it is a total function into `String`, so the
failure is reported as a value rather than raised, and the outer agent
receives a non-empty explanation. -/
theorem review_missing_payload_returns_error_string
    (fs : FS) (oracle : Oracle) (filtered_tools : List Tool)
    (pr_id query : String)
    (habsent : fs.prJsonExists pr_id = false) :
    generate_review fs oracle filtered_tools pr_id query =
      "Error generating review: " ++
        ("PR data file not found at " ++ pr_json_path pr_id) ∧
    generate_review fs oracle filtered_tools pr_id query ≠ "" := by
  have h : get_pr_data fs pr_id =
      .error ("PR data file not found at " ++ pr_json_path pr_id) := by
    simp [get_pr_data, habsent]
  refine ⟨by simp [generate_review, h], ?_⟩
  rw [show generate_review fs oracle filtered_tools pr_id query =
      "Error generating review: " ++
        ("PR data file not found at " ++ pr_json_path pr_id) from
    by simp [generate_review, h]]
  exact error_banner_append_ne_empty _

/-- C7 witness: no `pr.json` exists for project `"p"`. -/
theorem review_missing_payload_returns_error_string_witness :
    generate_review fsNone oracleAns [] "p" "q" =
      "Error generating review: " ++
        ("PR data file not found at " ++ pr_json_path "p") ∧
    generate_review fsNone oracleAns [] "p" "q" ≠ "" :=
  review_missing_payload_returns_error_string fsNone oracleAns [] "p" "q" rfl

/-- C8 (failing evaluation): log persistence is not best-effort.  The same
request that yields a normal response when log writes succeed (first
conjunct) is turned into an `HTTPException(500)` when the response-record
write raises (second conjunct) — even though the agent's answer had been
produced and appended to the transcript (third conjunct) — and a failing
request-record write escapes the endpoint before the agent is even
consulted (fourth conjunct). -/
theorem log_write_failure_fails_request :
    ((chat_endpoint envAll logOn oracleAns "f" st0 reqPlain).1 =
      .response { answer := "the answer", mode := "interactive_assistant",
                  pr_id := "X", session_id := some "s" }) ∧
    ((chat_endpoint envAll logFail1 oracleAns "f" st0 reqPlain).1 =
      .httpError 500 ("An error occurred: " ++ "boom")) ∧
    (get_chat_history (chat_endpoint envAll logFail1 oracleAns "f" st0 reqPlain).2 "s" =
      [{ role := "user", content := "hello" },
       { role := "assistant", content := "the answer" },
       { role := "system", content := "Error processing request: " ++ "boom" }]) ∧
    ((chat_endpoint envAll logFail0 oracleAns "f" st0 reqPlain).1 =
      .uncaught "boom") :=
  ⟨rfl, rfl, rfl, rfl⟩

/-- C10: for a request in a valid mode whose agent resolves, the text the
endpoint dispatches to the agent is the fixed instruction text concatenated
with the user's query, except that a query starting with `"start review"`
(a prefix match, not an equality test) is dispatched unchanged; the
response's answer is the agent's reply to exactly that dispatched text. -/
theorem dispatched_query_is_prefixed_unless_start_review
    (env : Env) (log : LogConfig) (oracle : Oracle) (fresh : String)
    (st st1 : SessionState) (request : ChatRequest) (a : Agent)
    (hmode : request.mode = "interactive_assistant" ∨ request.mode = "co_reviewer")
    (hlog : log.enabled = false)
    (hagent : get_agent_for_pr env st request.pr_id request.mode
        (some (effective_session_id request fresh)) = (some a, st1)) :
    (chat_endpoint env log oracle fresh st request).1 =
      .response
        { answer := oracle.achat a
            (if startswith request.query "start review" then request.query
             else instruction_prefix ++ request.query),
          mode := request.mode, pr_id := request.pr_id,
          session_id := some (effective_session_id request fresh) } := by
  have hmode' : (request.mode == "interactive_assistant" ||
      request.mode == "co_reviewer") = true := by
    rcases hmode with h | h <;> simp [h]
  simp only [chat_endpoint, hlog, hagent, hmode', Bool.false_and]
  simp

/-- C10 witness: the query `"start review please"` — a proper extension of
`"start review"` — is dispatched to the agent unchanged. -/
theorem dispatched_query_is_prefixed_unless_start_review_witness :
    (chat_endpoint envAll logOff oracleEcho "f" st0 reqStartReview).1 =
      .response
        { answer := "echo:" ++ "start review please",
          mode := "co_reviewer", pr_id := "X", session_id := some "s" } :=
  dispatched_query_is_prefixed_unless_start_review envAll logOff oracleEcho "f"
    st0 stX reqStartReview agentX (Or.inr rfl) rfl rfl

end CodeReviewAssistant
